import Mathlib

/-!
Shallow embedding of the Logic Apps adapter from the repository notebook:
the class AzureLogicAppTool with its methods register_logic_app and
invoke_logic_app, and the tool factory create_send_email_function.

Modelling conventions:
* The Python dict `callback_urls : Dict[str, str]` is an association list
  with unique keys; dict assignment is `Registry.insert` (overwrite) and
  `name in d` / `d[name]` is `Registry.lookup?`.
* The payload `Dict[str, Any]` is an association list of strings;
  `payload.get(key, default)` is `Payload.get`.
* Network effects are passed in as oracles: `resolve` stands for
  `logic_client.workflow_triggers.list_callback_url` (which may raise, or
  return a callback whose `.value` may be None), and `net` stands for
  `requests.post` (which may raise, or return a response with a status
  code and a body text). `requests.Response.ok` is `status_code < 400`,
  per the requests library.
* Each operation returns, besides its Python return value, the state of
  the tool after the call, the list of HTTP POSTs it issued (url, JSON
  body, timeout), and the lines it printed, so that frame and
  no-network-call properties are statable.
-/

namespace LogicApps

/-- Invocation payload: an open string-to-string mapping, as in the
notebook's `payload: Dict[str, Any]`. -/
abbrev Payload := List (String × String)

/-- Python `payload.get(k, d)`: the value at the first matching key, or the
default when the key is absent. Total: never raises a key error. -/
def Payload.get (p : Payload) (k d : String) : String :=
  match p.find? (fun kv => kv.1 == k) with
  | some kv => kv.2
  | none => d

/-- The registry `callback_urls : Dict[str, str]`, keys unique. -/
abbrev Registry := List (String × String)

/-- Python dict membership/lookup `d[name]` on `callback_urls`. -/
def Registry.lookup? : Registry → String → Option String
  | [], _ => none
  | (k, v) :: rest, name => if k == name then some v else Registry.lookup? rest name

/-- Python dict assignment `d[name] = url`: overwrite the entry when the
key is present, append it otherwise. -/
def Registry.insert : Registry → String → String → Registry
  | [], name, url => [(name, url)]
  | (k, v) :: rest, name, url =>
      if k == name then (name, url) :: rest else (k, v) :: Registry.insert rest name url

/-- Keys of the registry are pairwise distinct (every Python dict
satisfies this; holds for every registry reachable from the
constructor). -/
def Registry.NoDupKeys (r : Registry) : Prop := (r.map Prod.fst).Nodup

instance (r : Registry) : Decidable (Registry.NoDupKeys r) :=
  List.nodupDecidable _

/-- The state of an `AzureLogicAppTool` instance (its `__init__` fields;
the `logic_client` handle itself is modelled by the `resolve` oracle). -/
structure AzureLogicAppTool where
  subscription_id : String
  resource_group : String
  callback_urls : Registry
  deriving Repr, DecidableEq

/-- `AzureLogicAppTool.__init__`: stores the identifiers and initializes
the registry empty. -/
def AzureLogicAppTool.init (subscription_id resource_group : String) : AzureLogicAppTool :=
  { subscription_id := subscription_id
    resource_group := resource_group
    callback_urls := [] }

/-- Outcome of the management-API call `list_callback_url`: either it
returns a callback object (whose `.value` may be None), or it raises. -/
inductive ResolveOutcome where
  | resolved (value : Option String)
  | raised (message : String)
  deriving Repr, DecidableEq

/-- `AzureLogicAppTool.register_logic_app`. The whole body is inside
`try`: a raising resolver, and the ValueError raised when
`callback.value is None`, are both caught by the `except` clause, which
only prints a warning — so in those cases the state is unchanged. On a
non-None value the callback URL is stored under the logic app name. -/
def register_logic_app (resolve : String → String → String → ResolveOutcome)
    (tool : AzureLogicAppTool) (logic_app_name trigger_name : String) : AzureLogicAppTool :=
  match resolve tool.resource_group logic_app_name trigger_name with
  | .resolved (some url) =>
      { tool with callback_urls := Registry.insert tool.callback_urls logic_app_name url }
  | .resolved none => tool
  | .raised _ => tool

/-- Outcome of `requests.post`: either a response carrying a status code
and a body text, or a raised exception (timeout, DNS failure, connection
reset, ...) with its description `str(e)`. -/
inductive HttpOutcome where
  | response (status : Nat) (text : String)
  | exn (message : String)
  deriving Repr, DecidableEq

/-- One HTTP POST as issued by `requests.post(url=url, json=payload,
timeout=30)`: the target url, the JSON body, and the timeout. -/
structure Post where
  url : String
  json : Payload
  timeout : Nat
  deriving Repr, DecidableEq

/-- The dictionary returned by `invoke_logic_app`: either
`\x7b"result": msg\x7d` (success) or `\x7b"error": msg\x7d` (failure). -/
inductive InvokeResult where
  | success (message : String)
  | error (message : String)
  deriving Repr, DecidableEq

/-- Observer: does the returned dictionary report success (key "result")
rather than failure (key "error")? -/
def InvokeResult.isSuccess : InvokeResult → Bool
  | .success _ => true
  | .error _ => false

/-- Everything observable about one `invoke_logic_app` call: the returned
dictionary, the tool state after the call, the POSTs issued, and the
printed lines. -/
structure InvokeOutput where
  result : InvokeResult
  tool : AzureLogicAppTool
  posts : List Post
  printed : List String
  deriving Repr, DecidableEq

/-- `AzureLogicAppTool.invoke_logic_app`. If the name is not registered,
print a simulated email (with default "unknown" for missing payload keys)
and return a success dictionary; no POST is issued. Otherwise POST the
payload to the cached url with timeout 30 and branch on `response.ok`
(status < 400); a raised exception is caught and converted to an error
dictionary. The registry is never written. -/
def invoke_logic_app (net : String → Payload → HttpOutcome)
    (tool : AzureLogicAppTool) (logic_app_name : String) (payload : Payload) : InvokeOutput :=
  match Registry.lookup? tool.callback_urls logic_app_name with
  | none =>
      { result := .success ("Successfully simulated email via " ++ logic_app_name ++ ".")
        tool := tool
        posts := []
        printed := ["📧 SIMULATED EMAIL:",
                    "   To: " ++ Payload.get payload "to" "unknown",
                    "   Subject: " ++ Payload.get payload "subject" "unknown",
                    "   Body: " ++ Payload.get payload "body" "unknown"] }
  | some url =>
      match net url payload with
      | .response status text =>
          if status < 400 then
            { result := .success ("Successfully invoked " ++ logic_app_name ++ ".")
              tool := tool
              posts := [⟨url, payload, 30⟩]
              printed := ["✅ Successfully invoked Logic App: " ++ logic_app_name] }
          else
            { result := .error ("Error invoking " ++ logic_app_name ++ " (" ++
                  toString status ++ "): " ++ text)
              tool := tool
              posts := [⟨url, payload, 30⟩]
              printed := ["⚠️ Error invoking Logic App: " ++ logic_app_name ++ " (" ++
                  toString status ++ ")"] }
      | .exn msg =>
          { result := .error ("Error invoking " ++ logic_app_name ++ ": " ++ msg)
            tool := tool
            posts := [⟨url, payload, 30⟩]
            printed := ["⚠️ Exception invoking Logic App: " ++ logic_app_name ++ " - " ++ msg] }

/-- One hexadecimal digit, lowercase, as produced by Python json. -/
def hexDigit (n : Nat) : Char :=
  if n < 10 then Char.ofNat (48 + n) else Char.ofNat (87 + n)

/-- Four-digit lowercase hexadecimal rendering used in \u escapes. -/
def hex4 (n : Nat) : String :=
  String.mk [hexDigit (n / 4096 % 16), hexDigit (n / 256 % 16),
             hexDigit (n / 16 % 16), hexDigit (n % 16)]

/-- `json.dumps` escaping of one character (default `ensure_ascii=True`):
quote and backslash escaped, control characters via short forms or \u,
printable ASCII literal, everything else \u-escaped (surrogate pairs
above the BMP). -/
def jsonEscapeChar (c : Char) : String :=
  if c = Char.ofNat 34 then "\\\""
  else if c = Char.ofNat 92 then "\\\\"
  else if c = Char.ofNat 10 then "\\n"
  else if c = Char.ofNat 9 then "\\t"
  else if c = Char.ofNat 13 then "\\r"
  else if c = Char.ofNat 8 then "\\b"
  else if c = Char.ofNat 12 then "\\f"
  else if c.toNat < 32 then "\\u" ++ hex4 c.toNat
  else if c.toNat ≤ 126 then String.mk [c]
  else if c.toNat < 65536 then "\\u" ++ hex4 c.toNat
  else
    "\\u" ++ hex4 (55296 + (c.toNat - 65536) / 1024) ++
    "\\u" ++ hex4 (56320 + (c.toNat - 65536) % 1024)

/-- `json.dumps` escaping of a string. -/
def jsonEscape (s : String) : String :=
  String.join (s.data.map jsonEscapeChar)

/-- `json.dumps(result)` for the one-key dictionaries returned by
`invoke_logic_app`. -/
def json_dumps : InvokeResult → String
  | .success m => "\x7b\"result\": \"" ++ jsonEscape m ++ "\"\x7d"
  | .error m => "\x7b\"error\": \"" ++ jsonEscape m ++ "\"\x7d"

/-- Everything observable about one call of the adapter-produced email
function: its string return value, the tool state after the call, the
POSTs issued, and the printed lines. -/
structure SendEmailOutput where
  ret : String
  tool : AzureLogicAppTool
  posts : List Post
  printed : List String
  deriving Repr, DecidableEq

/-- The inner closure `send_email_via_logic_app(to, subject, body)`
produced by `create_send_email_function`: build the payload from the
three arguments, invoke the bound logic app, print a line, and return
the result serialized with `json.dumps`. -/
def send_email_via_logic_app (net : String → Payload → HttpOutcome)
    (service : AzureLogicAppTool) (logic_app_name : String)
    (to_ subject body : String) : SendEmailOutput :=
  let payload : Payload := [("to", to_), ("subject", subject), ("body", body)]
  let out := invoke_logic_app net service logic_app_name payload
  { ret := json_dumps out.result
    tool := out.tool
    posts := out.posts
    printed := out.printed ++ ["📧 Email sent via Logic App:"] }

/-- `create_send_email_function(service, logic_app_name)`: returns the
three-string-argument closure bound to one service and one workflow
name. -/
def create_send_email_function (net : String → Payload → HttpOutcome)
    (service : AzureLogicAppTool) (logic_app_name : String) :
    String → String → String → SendEmailOutput :=
  fun to_ subject body => send_email_via_logic_app net service logic_app_name to_ subject body

/-! ### Helper lemmas about the registry and the dispatcher -/

/-- Looking up the key just inserted yields the inserted value. -/
theorem Registry.lookup_insert_self (r : Registry) (k v : String) :
    Registry.lookup? (Registry.insert r k v) k = some v := by
  induction r with
  | nil => simp [Registry.insert, Registry.lookup?]
  | cons hd tl ih =>
      obtain ⟨k1, v1⟩ := hd
      by_cases h : k1 == k
      · simp [Registry.insert, h, Registry.lookup?]
      · simp [Registry.insert, h, Registry.lookup?, ih]

/-- Every entry of `insert r k v` is an old entry or the new pair. -/
theorem Registry.mem_insert {r : Registry} {k v : String} {e : String × String}
    (he : e ∈ Registry.insert r k v) : e ∈ r ∨ e = (k, v) := by
  induction r with
  | nil => exact Or.inr (by simpa [Registry.insert] using he)
  | cons hd tl ih =>
      obtain ⟨k1, v1⟩ := hd
      by_cases h : k1 == k
      · simp only [Registry.insert, h, if_pos] at he
        rcases List.mem_cons.mp he with h1 | h1
        · exact Or.inr h1
        · exact Or.inl (List.mem_cons_of_mem _ h1)
      · simp only [Registry.insert, h, if_neg, Bool.false_eq_true, not_false_iff] at he
        rcases List.mem_cons.mp he with h1 | h1
        · exact Or.inl (h1 ▸ List.mem_cons_self _ _)
        · rcases ih h1 with h2 | h2
          · exact Or.inl (List.mem_cons_of_mem _ h2)
          · exact Or.inr h2

/-- Every key of `insert r k v` is an old key or the new key. -/
theorem Registry.mem_keys_insert {r : Registry} {k v a : String}
    (ha : a ∈ (Registry.insert r k v).map Prod.fst) : a ∈ r.map Prod.fst ∨ a = k := by
  rcases List.mem_map.mp ha with ⟨e, he, hfst⟩
  rcases Registry.mem_insert he with h | h
  · exact Or.inl (hfst ▸ List.mem_map_of_mem Prod.fst h)
  · right
    rw [← hfst, h]

/-- Insertion preserves distinctness of keys. -/
theorem Registry.noDupKeys_insert {r : Registry} (k v : String)
    (h : Registry.NoDupKeys r) : Registry.NoDupKeys (Registry.insert r k v) := by
  induction r with
  | nil => simp [Registry.insert, Registry.NoDupKeys]
  | cons hd tl ih =>
      obtain ⟨k1, v1⟩ := hd
      rw [Registry.NoDupKeys, List.map_cons, List.nodup_cons] at h
      by_cases hk : k1 == k
      · have hk1 : k1 = k := by simpa using hk
        rw [Registry.NoDupKeys]
        simp only [Registry.insert, hk, if_pos, List.map_cons, List.nodup_cons]
        exact ⟨hk1 ▸ h.1, h.2⟩
      · rw [Registry.NoDupKeys]
        simp only [Registry.insert, hk, if_neg, Bool.false_eq_true, not_false_iff,
          List.map_cons, List.nodup_cons]
        refine ⟨fun hmem => ?_, ih h.2⟩
        rcases Registry.mem_keys_insert hmem with h1 | h1
        · exact h.1 h1
        · exact absurd (by simp [h1]) hk

/-- A key absent from the registry matches no entry. -/
theorem Registry.filter_key_eq_nil {r : Registry} {k : String}
    (h : k ∉ r.map Prod.fst) : r.filter (fun e => e.1 == k) = [] := by
  induction r with
  | nil => rfl
  | cons hd tl ih =>
      obtain ⟨k1, v1⟩ := hd
      rw [List.map_cons, List.mem_cons] at h
      push_neg at h
      have hne : (k1 == k) = false := by
        simp only [beq_eq_false_iff_ne, ne_eq]
        exact fun hc => h.1 hc.symm
      simp [List.filter, hne, ih h.2]

/-- After inserting a key into a registry with distinct keys, exactly one
entry carries that key. -/
theorem Registry.countKey_insert {r : Registry} (k v : String)
    (h : Registry.NoDupKeys r) :
    ((Registry.insert r k v).filter (fun e => e.1 == k)).length = 1 := by
  induction r with
  | nil => simp [Registry.insert]
  | cons hd tl ih =>
      obtain ⟨k1, v1⟩ := hd
      rw [Registry.NoDupKeys, List.map_cons, List.nodup_cons] at h
      by_cases hk : k1 == k
      · have hk1 : k1 = k := by simpa using hk
        simp only [Registry.insert, hk, if_pos]
        have : tl.filter (fun e => e.1 == k) = [] :=
          Registry.filter_key_eq_nil (hk1 ▸ h.1)
        simp [List.filter, this]
      · simp only [Registry.insert, hk, if_neg, Bool.false_eq_true, not_false_iff]
        simp [List.filter, hk, ih h.2]

/-- `invoke_logic_app` on an unregistered name: the full output. -/
theorem invoke_logic_app_absent (net : String → Payload → HttpOutcome)
    (tool : AzureLogicAppTool) (logic_app_name : String) (payload : Payload)
    (habs : Registry.lookup? tool.callback_urls logic_app_name = none) :
    invoke_logic_app net tool logic_app_name payload =
      { result := .success ("Successfully simulated email via " ++ logic_app_name ++ ".")
        tool := tool
        posts := []
        printed := ["📧 SIMULATED EMAIL:",
                    "   To: " ++ Payload.get payload "to" "unknown",
                    "   Subject: " ++ Payload.get payload "subject" "unknown",
                    "   Body: " ++ Payload.get payload "body" "unknown"] } := by
  unfold invoke_logic_app
  rw [habs]

/-- `invoke_logic_app` on a registered name issues exactly one POST of the
payload to the cached url with timeout 30, whatever the network does. -/
theorem invoke_logic_app_posts_once (net : String → Payload → HttpOutcome)
    (tool : AzureLogicAppTool) (logic_app_name : String) (payload : Payload)
    (url : String)
    (hreg : Registry.lookup? tool.callback_urls logic_app_name = some url) :
    (invoke_logic_app net tool logic_app_name payload).posts = [⟨url, payload, 30⟩] := by
  unfold invoke_logic_app
  rw [hreg]
  cases h : net url payload with
  | response status text =>
      by_cases hs : status < 400 <;> simp [h, hs]
  | exn msg => simp [h]

/-- `invoke_logic_app` never writes the tool state (in particular the
registry), on any of its branches. -/
theorem invoke_logic_app_tool_eq (net : String → Payload → HttpOutcome)
    (tool : AzureLogicAppTool) (logic_app_name : String) (payload : Payload) :
    (invoke_logic_app net tool logic_app_name payload).tool = tool := by
  unfold invoke_logic_app
  split
  · rfl
  · split
    · split <;> rfl
    · rfl

/-! ### The claims -/

/-- C1: for every workflow name absent from the registry and every
payload, `invoke_logic_app` returns a Success result whose message states
the action was simulated, prints a human-readable rendering of the
payload's recipient/subject/body, and issues no HTTP POST. -/
theorem C1_dispatch_absent_simulates (net : String → Payload → HttpOutcome)
    (tool : AzureLogicAppTool) (logic_app_name : String) (payload : Payload)
    (habs : Registry.lookup? tool.callback_urls logic_app_name = none) :
    (invoke_logic_app net tool logic_app_name payload).result =
      .success ("Successfully simulated email via " ++ logic_app_name ++ ".") ∧
    (invoke_logic_app net tool logic_app_name payload).posts = [] ∧
    (invoke_logic_app net tool logic_app_name payload).printed =
      ["📧 SIMULATED EMAIL:",
       "   To: " ++ Payload.get payload "to" "unknown",
       "   Subject: " ++ Payload.get payload "subject" "unknown",
       "   Body: " ++ Payload.get payload "body" "unknown"] := by
  rw [invoke_logic_app_absent net tool logic_app_name payload habs]
  exact ⟨rfl, rfl, rfl⟩

/-- C1 witness: a concrete unregistered name and payload. -/
theorem C1_dispatch_absent_simulates_witness :
    (invoke_logic_app (fun _ _ => HttpOutcome.exn "connection refused")
        (AzureLogicAppTool.init "sub" "rg") "agent-logic-apps"
        [("to", "a@b.com"), ("subject", "Q3"), ("body", "Great quarter")]).posts = [] ∧
    (invoke_logic_app (fun _ _ => HttpOutcome.exn "connection refused")
        (AzureLogicAppTool.init "sub" "rg") "agent-logic-apps"
        [("to", "a@b.com"), ("subject", "Q3"), ("body", "Great quarter")]).result =
      InvokeResult.success "Successfully simulated email via agent-logic-apps." := by
  have h := C1_dispatch_absent_simulates (fun _ _ => HttpOutcome.exn "connection refused")
      (AzureLogicAppTool.init "sub" "rg") "agent-logic-apps"
      [("to", "a@b.com"), ("subject", "Q3"), ("body", "Great quarter")] rfl
  exact ⟨h.2.1, h.1⟩

/-- C2 counterexample: with a registered endpoint whose response has
status 300 — not a 2xx — `invoke_logic_app` still returns Success,
because the code branches on `response.ok` (status below 400), not on
2xx. -/
theorem C2_counterexample_status300 :
    ((invoke_logic_app (fun _ _ => HttpOutcome.response 300 "multiple choices")
        { subscription_id := "sub", resource_group := "rg",
          callback_urls := [("wf", "https://example.org/hook")] }
        "wf" [("to", "a@b.com")]).result).isSuccess = true ∧
    ¬ (200 ≤ 300 ∧ 300 < 300) := by
  exact ⟨rfl, by decide⟩

/-- C2 (amended): for a registered name whose POST yields a response, the
result is Success iff the status is below 400 (the requests library's
`response.ok`), and on any status of 400 or more the result is a Failure
carrying the status code and the response body. -/
theorem C2_dispatch_status_branches (net : String → Payload → HttpOutcome)
    (tool : AzureLogicAppTool) (logic_app_name : String) (payload : Payload)
    (url text : String) (status : Nat)
    (hreg : Registry.lookup? tool.callback_urls logic_app_name = some url)
    (hnet : net url payload = HttpOutcome.response status text) :
    ((invoke_logic_app net tool logic_app_name payload).result.isSuccess = true ↔
      status < 400) ∧
    (400 ≤ status →
      (invoke_logic_app net tool logic_app_name payload).result =
        .error ("Error invoking " ++ logic_app_name ++ " (" ++
          toString status ++ "): " ++ text)) := by
  by_cases hs : status < 400
  · exact ⟨by simp [invoke_logic_app, hreg, hnet, hs, InvokeResult.isSuccess],
      fun hge => absurd hs (by omega)⟩
  · exact ⟨by simp [invoke_logic_app, hreg, hnet, hs, InvokeResult.isSuccess],
      fun _ => by simp [invoke_logic_app, hreg, hnet, hs]⟩

/-- C2 witness: a registered name with a 500 response yields a Failure
carrying the status code and the body. -/
theorem C2_dispatch_status_branches_witness :
    (invoke_logic_app (fun _ _ => HttpOutcome.response 500 "boom")
        { subscription_id := "sub", resource_group := "rg",
          callback_urls := [("wf", "https://example.org/hook")] }
        "wf" [("to", "a@b.com")]).result =
      InvokeResult.error "Error invoking wf (500): boom" := by
  have h := C2_dispatch_status_branches (fun _ _ => HttpOutcome.response 500 "boom")
      { subscription_id := "sub", resource_group := "rg",
        callback_urls := [("wf", "https://example.org/hook")] }
      "wf" [("to", "a@b.com")] "https://example.org/hook" "boom" 500 rfl rfl
  simpa using h.2 (by omega)

/-- C3: for a registered name, a transport-level exception raised by the
POST is caught and converted into a Failure result carrying the exception
description `str(e)`; the embedding of the method is a total function, so
no exception propagates for any remote failure. -/
theorem C3_dispatch_transport_error (net : String → Payload → HttpOutcome)
    (tool : AzureLogicAppTool) (logic_app_name : String) (payload : Payload)
    (url msg : String)
    (hreg : Registry.lookup? tool.callback_urls logic_app_name = some url)
    (hnet : net url payload = HttpOutcome.exn msg) :
    (invoke_logic_app net tool logic_app_name payload).result =
      .error ("Error invoking " ++ logic_app_name ++ ": " ++ msg) := by
  simp [invoke_logic_app, hreg, hnet]

/-- C3 witness: a registered name with a timing-out POST. -/
theorem C3_dispatch_transport_error_witness :
    (invoke_logic_app (fun _ _ => HttpOutcome.exn "ConnectTimeout")
        { subscription_id := "sub", resource_group := "rg",
          callback_urls := [("wf", "https://example.org/hook")] }
        "wf" []).result = InvokeResult.error "Error invoking wf: ConnectTimeout" := by
  have h := C3_dispatch_transport_error (fun _ _ => HttpOutcome.exn "ConnectTimeout")
      { subscription_id := "sub", resource_group := "rg",
        callback_urls := [("wf", "https://example.org/hook")] }
      "wf" [] "https://example.org/hook" "ConnectTimeout" rfl rfl
  simpa using h

/-- C4: when the resolver fails (raises, or returns a callback whose
value is None), `register_logic_app` returns with the tool state — in
particular the registry — exactly as before (the except clause swallows
the error; the embedding is a total function, so nothing propagates), and
a subsequent dispatch for a name absent from the registry still takes the
simulation branch and issues no POST. -/
theorem C4_register_failure_noop (resolve : String → String → String → ResolveOutcome)
    (net : String → Payload → HttpOutcome) (tool : AzureLogicAppTool)
    (logic_app_name trigger_name : String) (payload : Payload)
    (hfail : ∀ v : String,
      resolve tool.resource_group logic_app_name trigger_name ≠
        ResolveOutcome.resolved (some v)) :
    register_logic_app resolve tool logic_app_name trigger_name = tool ∧
    (Registry.lookup? tool.callback_urls logic_app_name = none →
      (invoke_logic_app net (register_logic_app resolve tool logic_app_name trigger_name)
          logic_app_name payload).posts = [] ∧
      (invoke_logic_app net (register_logic_app resolve tool logic_app_name trigger_name)
          logic_app_name payload).result =
        .success ("Successfully simulated email via " ++ logic_app_name ++ ".")) := by
  have hreg : register_logic_app resolve tool logic_app_name trigger_name = tool := by
    cases h : resolve tool.resource_group logic_app_name trigger_name with
    | resolved v =>
        cases v with
        | none => simp [register_logic_app, h]
        | some u => exact absurd h (hfail u)
    | raised m => simp [register_logic_app, h]
  refine ⟨hreg, fun habs => ?_⟩
  rw [hreg, invoke_logic_app_absent net tool logic_app_name payload habs]
  exact ⟨rfl, rfl⟩

/-- C4 witness: a resolver that raises ResourceNotFound. -/
theorem C4_register_failure_noop_witness :
    register_logic_app (fun _ _ _ => ResolveOutcome.raised "ResourceNotFound")
      (AzureLogicAppTool.init "sub" "rg") "agent-logic-apps"
      "When_a_HTTP_request_is_received" = AzureLogicAppTool.init "sub" "rg" ∧
    (invoke_logic_app (fun _ _ => HttpOutcome.response 200 "ok")
        (register_logic_app (fun _ _ _ => ResolveOutcome.raised "ResourceNotFound")
          (AzureLogicAppTool.init "sub" "rg") "agent-logic-apps"
          "When_a_HTTP_request_is_received")
        "agent-logic-apps" []).posts = [] := by
  have h := C4_register_failure_noop (fun _ _ _ => ResolveOutcome.raised "ResourceNotFound")
      (fun _ _ => HttpOutcome.response 200 "ok") (AzureLogicAppTool.init "sub" "rg")
      "agent-logic-apps" "When_a_HTTP_request_is_received" []
      (fun v h => ResolveOutcome.noConfusion h)
  exact ⟨h.1, (h.2 rfl).1⟩

/-- C5: for a registered name, dispatch issues exactly one POST of the
exact payload as JSON to the cached endpoint with timeout 30 — one
attempt whatever the network outcome, no retries — and on an HTTP 200
response it returns Success. -/
theorem C5_dispatch_present_single_post (net : String → Payload → HttpOutcome)
    (tool : AzureLogicAppTool) (logic_app_name : String) (payload : Payload)
    (url : String)
    (hreg : Registry.lookup? tool.callback_urls logic_app_name = some url) :
    (invoke_logic_app net tool logic_app_name payload).posts =
      [⟨url, payload, 30⟩] ∧
    (∀ text : String, net url payload = HttpOutcome.response 200 text →
      (invoke_logic_app net tool logic_app_name payload).result =
        .success ("Successfully invoked " ++ logic_app_name ++ ".")) := by
  refine ⟨invoke_logic_app_posts_once net tool logic_app_name payload url hreg, ?_⟩
  intro text hnet
  simp [invoke_logic_app, hreg, hnet]

/-- C5 witness: the spec's example scenario, endpoint answering 200. -/
theorem C5_dispatch_present_single_post_witness :
    (invoke_logic_app (fun _ _ => HttpOutcome.response 200 "accepted")
        { subscription_id := "sub", resource_group := "rg",
          callback_urls := [("sales-alert", "https://example.org/hook?sig=abc")] }
        "sales-alert"
        [("to", "a@b.com"), ("subject", "Q3"), ("body", "Great quarter")]).posts =
      [⟨"https://example.org/hook?sig=abc",
        [("to", "a@b.com"), ("subject", "Q3"), ("body", "Great quarter")], 30⟩] ∧
    (invoke_logic_app (fun _ _ => HttpOutcome.response 200 "accepted")
        { subscription_id := "sub", resource_group := "rg",
          callback_urls := [("sales-alert", "https://example.org/hook?sig=abc")] }
        "sales-alert"
        [("to", "a@b.com"), ("subject", "Q3"), ("body", "Great quarter")]).result =
      InvokeResult.success "Successfully invoked sales-alert." := by
  have h := C5_dispatch_present_single_post (fun _ _ => HttpOutcome.response 200 "accepted")
      { subscription_id := "sub", resource_group := "rg",
        callback_urls := [("sales-alert", "https://example.org/hook?sig=abc")] }
      "sales-alert" [("to", "a@b.com"), ("subject", "Q3"), ("body", "Great quarter")]
      "https://example.org/hook?sig=abc" rfl
  exact ⟨h.1, by simpa using h.2 "accepted" rfl⟩

/-- C6: registering the same name twice, each time with a successfully
resolved endpoint, leaves exactly one registry entry for that name,
holding the second endpoint; every subsequent dispatch for that name
POSTs to the second endpoint (last-write-wins). -/
theorem C6_register_last_write_wins
    (resolve1 resolve2 : String → String → String → ResolveOutcome)
    (net : String → Payload → HttpOutcome) (tool : AzureLogicAppTool)
    (logic_app_name trigger_name e1 e2 : String) (payload : Payload)
    (hnodup : Registry.NoDupKeys tool.callback_urls)
    (h1 : resolve1 tool.resource_group logic_app_name trigger_name =
      ResolveOutcome.resolved (some e1))
    (h2 : resolve2 tool.resource_group logic_app_name trigger_name =
      ResolveOutcome.resolved (some e2)) :
    Registry.lookup?
      (register_logic_app resolve2
        (register_logic_app resolve1 tool logic_app_name trigger_name)
        logic_app_name trigger_name).callback_urls logic_app_name = some e2 ∧
    ((register_logic_app resolve2
        (register_logic_app resolve1 tool logic_app_name trigger_name)
        logic_app_name trigger_name).callback_urls.filter
      (fun e => e.1 == logic_app_name)).length = 1 ∧
    (invoke_logic_app net
      (register_logic_app resolve2
        (register_logic_app resolve1 tool logic_app_name trigger_name)
        logic_app_name trigger_name)
      logic_app_name payload).posts = [⟨e2, payload, 30⟩] := by
  have ht1 : register_logic_app resolve1 tool logic_app_name trigger_name =
      { tool with
        callback_urls := Registry.insert tool.callback_urls logic_app_name e1 } := by
    simp [register_logic_app, h1]
  have ht2 : register_logic_app resolve2
      (register_logic_app resolve1 tool logic_app_name trigger_name)
      logic_app_name trigger_name =
      { tool with
        callback_urls :=
          Registry.insert (Registry.insert tool.callback_urls logic_app_name e1)
            logic_app_name e2 } := by
    rw [ht1]
    simp [register_logic_app, h2]
  rw [ht2]
  have hlook := Registry.lookup_insert_self
      (Registry.insert tool.callback_urls logic_app_name e1) logic_app_name e2
  refine ⟨hlook, ?_, ?_⟩
  · exact Registry.countKey_insert logic_app_name e2
      (Registry.noDupKeys_insert logic_app_name e1 hnodup)
  · exact invoke_logic_app_posts_once net _ logic_app_name payload e2 hlook

/-- C6 witness: two successful registrations of the same name. -/
theorem C6_register_last_write_wins_witness :
    Registry.lookup?
      (register_logic_app (fun _ _ _ => ResolveOutcome.resolved (some "https://new.example.org"))
        (register_logic_app
          (fun _ _ _ => ResolveOutcome.resolved (some "https://old.example.org"))
          (AzureLogicAppTool.init "sub" "rg") "wf" "trig")
        "wf" "trig").callback_urls "wf" = some "https://new.example.org" ∧
    (invoke_logic_app (fun _ _ => HttpOutcome.response 200 "ok")
      (register_logic_app (fun _ _ _ => ResolveOutcome.resolved (some "https://new.example.org"))
        (register_logic_app
          (fun _ _ _ => ResolveOutcome.resolved (some "https://old.example.org"))
          (AzureLogicAppTool.init "sub" "rg") "wf" "trig")
        "wf" "trig")
      "wf" []).posts = [⟨"https://new.example.org", [], 30⟩] := by
  have h := C6_register_last_write_wins
      (fun _ _ _ => ResolveOutcome.resolved (some "https://old.example.org"))
      (fun _ _ _ => ResolveOutcome.resolved (some "https://new.example.org"))
      (fun _ _ => HttpOutcome.response 200 "ok")
      (AzureLogicAppTool.init "sub" "rg") "wf" "trig"
      "https://old.example.org" "https://new.example.org" [] (by decide) rfl rfl
  exact ⟨h.1, h.2.2⟩

/-- C7: the callable produced by `create_send_email_function` builds the
payload (to, subject, body) from its three arguments, calls
`invoke_logic_app` with that payload and the bound workflow name, and
returns the dispatch result serialized with `json_dumps`; its POSTs are
exactly those of that dispatch. -/
theorem C7_send_email_function_shape (net : String → Payload → HttpOutcome)
    (service : AzureLogicAppTool) (logic_app_name to_ subject body : String) :
    (create_send_email_function net service logic_app_name to_ subject body).ret =
      json_dumps (invoke_logic_app net service logic_app_name
        [("to", to_), ("subject", subject), ("body", body)]).result ∧
    (create_send_email_function net service logic_app_name to_ subject body).posts =
      (invoke_logic_app net service logic_app_name
        [("to", to_), ("subject", subject), ("body", body)]).posts :=
  ⟨rfl, rfl⟩

/-- C8: dispatch and the adapter-produced callable never change the
registry: on every branch (simulation, HTTP success, HTTP error,
transport exception) the tool state after the call — in particular
`callback_urls` — equals the state before. -/
theorem C8_registry_frame (net : String → Payload → HttpOutcome)
    (tool : AzureLogicAppTool) (logic_app_name : String) (payload : Payload)
    (to_ subject body : String) :
    (invoke_logic_app net tool logic_app_name payload).tool.callback_urls =
      tool.callback_urls ∧
    (send_email_via_logic_app net tool logic_app_name to_ subject body).tool.callback_urls =
      tool.callback_urls := by
  constructor
  · rw [invoke_logic_app_tool_eq]
  · simp [send_email_via_logic_app, invoke_logic_app_tool_eq]

/-- C9: the registry maps names only to concrete (non-None) endpoint
values: the constructor starts it empty, a resolver response whose value
is None adds nothing, and every entry present after a registration is
either an old entry or the pair of the registered name with the concrete
value the resolver returned. -/
theorem C9_registry_non_null_invariant
    (resolve : String → String → String → ResolveOutcome)
    (tool : AzureLogicAppTool) (logic_app_name trigger_name sub rg : String) :
    (AzureLogicAppTool.init sub rg).callback_urls = [] ∧
    (resolve tool.resource_group logic_app_name trigger_name =
        ResolveOutcome.resolved none →
      register_logic_app resolve tool logic_app_name trigger_name = tool) ∧
    (∀ e ∈ (register_logic_app resolve tool logic_app_name trigger_name).callback_urls,
      e ∈ tool.callback_urls ∨
        (resolve tool.resource_group logic_app_name trigger_name =
            ResolveOutcome.resolved (some e.2) ∧ e.1 = logic_app_name)) := by
  refine ⟨rfl, fun hnone => by simp [register_logic_app, hnone], ?_⟩
  intro e he
  cases h : resolve tool.resource_group logic_app_name trigger_name with
  | resolved v =>
      cases v with
      | none =>
          left
          simpa [register_logic_app, h] using he
      | some u =>
          simp only [register_logic_app, h] at he
          rcases Registry.mem_insert he with h1 | h1
          · exact Or.inl h1
          · subst h1
            exact Or.inr ⟨rfl, rfl⟩
  | raised m =>
      left
      simpa [register_logic_app, h] using he

/-- C9 witness: a resolver returning a callback with a None value leaves
the freshly constructed (empty) registry unchanged. -/
theorem C9_registry_non_null_invariant_witness :
    register_logic_app (fun _ _ _ => ResolveOutcome.resolved none)
      (AzureLogicAppTool.init "sub" "rg") "wf" "trig" =
      AzureLogicAppTool.init "sub" "rg" := by
  have h := C9_registry_non_null_invariant (fun _ _ _ => ResolveOutcome.resolved none)
      (AzureLogicAppTool.init "sub" "rg") "wf" "trig" "sub" "rg"
  exact h.2.1 rfl

/-- C10: the simulation branch is total on arbitrary payloads: it returns
Success, its rendering uses `Payload.get` with default "unknown", and for
every key absent from the payload that default is what is printed — no
key-lookup error can occur. -/
theorem C10_simulation_total_defaults (net : String → Payload → HttpOutcome)
    (tool : AzureLogicAppTool) (logic_app_name : String) (payload : Payload)
    (habs : Registry.lookup? tool.callback_urls logic_app_name = none) :
    (invoke_logic_app net tool logic_app_name payload).result =
      .success ("Successfully simulated email via " ++ logic_app_name ++ ".") ∧
    (invoke_logic_app net tool logic_app_name payload).printed =
      ["📧 SIMULATED EMAIL:",
       "   To: " ++ Payload.get payload "to" "unknown",
       "   Subject: " ++ Payload.get payload "subject" "unknown",
       "   Body: " ++ Payload.get payload "body" "unknown"] ∧
    (∀ k : String, payload.find? (fun kv => kv.1 == k) = none →
      Payload.get payload k "unknown" = "unknown") := by
  rw [invoke_logic_app_absent net tool logic_app_name payload habs]
  refine ⟨rfl, rfl, fun k hk => ?_⟩
  simp [Payload.get, hk]

/-- C10 witness: the empty payload — every key missing — still yields
Success and the all-"unknown" rendering. -/
theorem C10_simulation_total_defaults_witness :
    (invoke_logic_app (fun _ _ => HttpOutcome.exn "down")
        (AzureLogicAppTool.init "sub" "rg") "wf" []).printed =
      ["📧 SIMULATED EMAIL:", "   To: unknown", "   Subject: unknown",
       "   Body: unknown"] ∧
    (invoke_logic_app (fun _ _ => HttpOutcome.exn "down")
        (AzureLogicAppTool.init "sub" "rg") "wf" []).result =
      InvokeResult.success "Successfully simulated email via wf." := by
  have h := C10_simulation_total_defaults (fun _ _ => HttpOutcome.exn "down")
      (AzureLogicAppTool.init "sub" "rg") "wf" [] rfl
  exact ⟨h.2.1, h.1⟩

end LogicApps
